import Mathlib

/-!
Verification of the Lensa artwork-recognition engine.

The first part embeds `ArtworkRecognitionEngine.recognize_artwork` from
`src/artwork_recognition.py` (the URL-oriented engine variant): the ratio
filter over knn match pairs, the per-candidate confidence
`num_good / (1 + avg_distance / 100)`, the best-candidate tracking loop and
the final truthiness gate.  Distances and scores are modelled as rationals;
the Python `ZeroDivisionError` path is modelled with `Except`.  The matcher
(`cv2.BFMatcher.knnMatch`) is an external capability and is a parameter: it
maps the query and one reference descriptor set to a list of candidate
lists, or fails (`cv2.error`, modelled as `none`).

The second part models, from the specification, the components of the
repository's second (local-file) engine variant that is not present under
`src/`: the 0.7/0.3 confidence blend, the 0.75-default ratio test with its
zero/zero special case, the 0.18/12 acceptance gates, the result record
with 4-decimal rounding, and the keyed descriptor store.
-/

/-- A byte vector produced by the feature extractor (ORB descriptor). -/
abbrev Descriptor := List ℕ

/-- An ordered sequence of descriptors extracted from one image. -/
abbrev DescriptorSet := List Descriptor

/-- One knn match as returned by the matcher: only its `distance` field is
read by `recognize_artwork`. -/
structure DMatch where
  distance : ℚ
deriving DecidableEq

/-- Failure modes of the embedded `recognize_artwork`:
`zeroDivision` models Python's `ZeroDivisionError` in
`sum(...) / num_good_matches`. -/
inductive RecErr where
  | zeroDivision
deriving DecidableEq

/-- The mutable accumulator of the scan loop:
`best_match = None`, `best_score = 0`, `best_matches_count = 0` initially. -/
structure BestState where
  bestMatch : Option ℤ
  bestScore : ℚ
  bestCount : ℕ
deriving DecidableEq

/-- Lines 198-204 of `artwork_recognition.py`: keep `m` from each pair of
length exactly two with `m.distance < match_threshold * n.distance`. -/
def goodMatches (matchThreshold : ℚ) (pairs : List (List DMatch)) : List DMatch :=
  pairs.filterMap fun pair =>
    match pair with
    | [m, n] => if m.distance < matchThreshold * n.distance then some m else none
    | _ => none

/-- Line 211: `avg_distance = sum(m.distance for m in good_matches) / num_good_matches`. -/
def avgDistanceOf (good : List DMatch) : ℚ :=
  (good.map DMatch.distance).sum / (good.length : ℚ)

/-- Line 212: `confidence = num_good_matches / (1 + avg_distance / 100)`. -/
def confidenceOf (n : ℕ) (avgDistance : ℚ) : ℚ :=
  (n : ℚ) / (1 + avgDistance / 100)

/-- Default `min_matches` of `recognize_artwork` (line 154). -/
def defaultMinMatches : ℤ := 30

/-- Default `match_threshold` of `recognize_artwork` (line 155). -/
def defaultMatchThreshold : ℚ := 0.7

/-- One iteration of the scan loop (lines 188-218) for one stored record,
given the matcher's output for it.  `none` models `cv2.error`, which the
code catches and skips with `continue`.  When the good-match count clears
`min_matches` but is zero (possible only for `min_matches ≤ 0`), Python
raises `ZeroDivisionError` computing the average. -/
def scanStep (minMatches : ℤ) (matchThreshold : ℚ) (st : BestState) (aid : ℤ)
    (pairs : Option (List (List DMatch))) : Except RecErr BestState :=
  match pairs with
  | none => .ok st
  | some ps =>
    let good := goodMatches matchThreshold ps
    let n := good.length
    if (n : ℤ) ≥ minMatches then
      if n = 0 then .error .zeroDivision
      else
        let conf := confidenceOf n (avgDistanceOf good)
        if conf > st.bestScore then .ok ⟨some aid, conf, n⟩ else .ok st
    else .ok st

/-- The full scan over the stored records (lines 184-218), threading the
best-so-far state; the matcher is invoked on the query set and each
record's descriptor set. -/
def scanLoop (matcher : DescriptorSet → DescriptorSet → Option (List (List DMatch)))
    (q : DescriptorSet) (minMatches : ℤ) (matchThreshold : ℚ) :
    BestState → List (ℤ × DescriptorSet) → Except RecErr BestState
  | st, [] => .ok st
  | st, (aid, ref) :: rest =>
    match scanStep minMatches matchThreshold st aid (matcher q ref) with
    | .error e => .error e
    | .ok st' => scanLoop matcher q minMatches matchThreshold st' rest

/-- Lines 220-223: return the tracked best under Python truthiness of
`best_match` (`None` and artwork id `0` are both falsy). -/
def bestToResult (st : BestState) : Option (ℤ × ℚ × ℕ) :=
  match st.bestMatch with
  | none => none
  | some aid => if aid = 0 then none else some (aid, st.bestScore, st.bestCount)

/-- `recognize_artwork` (lines 152-223): empty query descriptors return
`None` immediately; otherwise scan all records and return the tracked
best. -/
def recognize_artwork (matcher : DescriptorSet → DescriptorSet → Option (List (List DMatch)))
    (q : DescriptorSet) (records : List (ℤ × DescriptorSet))
    (minMatches : ℤ) (matchThreshold : ℚ) :
    Except RecErr (Option (ℤ × ℚ × ℕ)) :=
  if q.isEmpty then .ok none
  else
    match scanLoop matcher q minMatches matchThreshold ⟨none, 0, 0⟩ records with
    | .error e => .error e
    | .ok st => .ok (bestToResult st)

/-- A candidate as scored by the loop: artwork id, confidence, good count. -/
structure Cand where
  id : ℤ
  conf : ℚ
  count : ℕ
deriving DecidableEq

/-- The score the loop body computes for one record's matcher output:
`none` when the record is skipped (below `min_matches`) or would divide by
zero. -/
def candOf (minMatches : ℤ) (matchThreshold : ℚ) (aid : ℤ)
    (ps : List (List DMatch)) : Option Cand :=
  if ((goodMatches matchThreshold ps).length : ℤ) ≥ minMatches then
    if (goodMatches matchThreshold ps).length = 0 then none
    else
      some ⟨aid,
        confidenceOf (goodMatches matchThreshold ps).length
          (avgDistanceOf (goodMatches matchThreshold ps)),
        (goodMatches matchThreshold ps).length⟩
  else none

/-- The list of candidates that receive a confidence during the scan, in
store-snapshot order. -/
def scoredCandidates (matcher : DescriptorSet → DescriptorSet → Option (List (List DMatch)))
    (q : DescriptorSet) (minMatches : ℤ) (matchThreshold : ℚ)
    (records : List (ℤ × DescriptorSet)) : List Cand :=
  records.filterMap fun r => (matcher q r.2).bind (candOf minMatches matchThreshold r.1)

/-- The best-so-far update of lines 214-217: replace only on strictly
greater confidence. -/
def trackStep (st : BestState) (c : Cand) : BestState :=
  if c.conf > st.bestScore then ⟨some c.id, c.conf, c.count⟩ else st

/-- A nearest/second-nearest correspondence for one query descriptor, as
produced by the Descriptor Matcher of the second engine variant. -/
structure Correspondence where
  d1 : ℚ
  d2 : ℚ
deriving DecidableEq

/-- Modelled from the spec: the distinctiveness filter of the Match
Confidence Scorer in the repository's second (local-file) engine variant,
which is not under `src/`.  A correspondence is good when both distances
are exactly zero, or when `d1 < ratio_threshold * d2`. -/
def passesRatioTest (ratioThreshold : ℚ) (c : Correspondence) : Bool :=
  if (c.d1 = 0 ∧ c.d2 = 0) ∨ c.d1 < ratioThreshold * c.d2 then true else false

/-- Modelled from the spec: the default ratio-test threshold of the second
engine variant. -/
def defaultRatioThreshold : ℚ := 0.75

/-- Modelled from the spec: the reduction of the Match Confidence Scorer of
the second engine variant (not under `src/`): count good correspondences;
if none, confidence 0; otherwise blend the match ratio against the smaller
set size with the 256-rescaled mean distance using weights 0.7/0.3.
Returns `(confidence, good_count)`. -/
def scoreCorrespondences (querySize refSize : ℕ) (ratioThreshold : ℚ)
    (cs : List Correspondence) : ℚ × ℕ :=
  let good := cs.filter (passesRatioTest ratioThreshold)
  let gc := good.length
  if gc = 0 then (0, 0)
  else
    let mr := (gc : ℚ) / ((max (min querySize refSize) 1 : ℕ) : ℚ)
    let meanDist := (good.map Correspondence.d1).sum / (gc : ℚ)
    let dq := max 0 (1 - meanDist / 256)
    (0.7 * mr + 0.3 * dq, gc)

/-- A scored candidate handed to the acceptance gate of the second engine
variant. -/
structure SpecBest where
  artworkRef : ℤ
  confidence : ℚ
  goodCount : ℕ
deriving DecidableEq

/-- Modelled from the spec: default confidence threshold of the second
engine variant's acceptance gate. -/
def defaultConfidenceThreshold : ℚ := 0.18

/-- Modelled from the spec: default minimum good-match floor of the second
engine variant's acceptance gate. -/
def defaultMinGoodMatches : ℕ := 12

/-- Modelled from the spec: the acceptance gate of the second engine
variant's orchestrator (not under `src/`): reject when no candidate was
tracked, or when the best candidate's confidence is below the threshold or
its good count is below the floor. -/
def acceptBest (confThreshold : ℚ) (minGood : ℕ) (best : Option SpecBest) :
    Option SpecBest :=
  match best with
  | none => none
  | some b =>
    if b.confidence < confThreshold ∨ b.goodCount < minGood then none else some b

/-- The accepted output of one recognition call of the second engine
variant. -/
structure RecognitionResult where
  artworkRef : ℤ
  confidence : ℚ
  goodCount : ℕ
  queryFeatureCount : ℕ
deriving DecidableEq

/-- Rounding to 4 decimal places. -/
def round4 (x : ℚ) : ℚ := ((round (x * 10000) : ℤ) : ℚ) / 10000

/-- Modelled from the spec: the second engine variant's result construction
(not under `src/`): on acceptance, return the artwork reference, the
confidence rounded to 4 decimal places, the good count and the query's
extracted-descriptor count. -/
def finalizeResult (confThreshold : ℚ) (minGood : ℕ) (querySize : ℕ)
    (best : Option SpecBest) : Option RecognitionResult :=
  match acceptBest confThreshold minGood best with
  | none => none
  | some b => some ⟨b.artworkRef, round4 b.confidence, b.goodCount, querySize⟩

/-- The feature-kind tag of a descriptor record (`feature_type`). -/
abbrev FeatureKind := String

/-- The descriptor store as a sequence of rows
`(artwork_ref, feature_kind, descriptor_set)`. -/
abbrev DescriptorStore := List (ℤ × FeatureKind × DescriptorSet)

/-- Whether a row belongs to the `(artwork_ref, feature_kind)` key. -/
def sameKey (a : ℤ) (k : FeatureKind) (r : ℤ × FeatureKind × DescriptorSet) : Bool :=
  if r.1 = a ∧ r.2.1 = k then true else false

/-- Modelled from the spec: the `artwork_features` table schema and its
uniqueness key are not under `src/` (only the `INSERT OR REPLACE` caller
is); per the store contract, `put` atomically removes any existing record
for `(artwork_ref, feature_kind)` and inserts the new one. -/
def put (store : DescriptorStore) (a : ℤ) (k : FeatureKind) (s : DescriptorSet) :
    DescriptorStore :=
  store.filter (fun r => !(sameKey a k r)) ++ [(a, k, s)]

/-- The current rows of the store for one `(artwork_ref, feature_kind)` key. -/
def currentRecords (store : DescriptorStore) (a : ℤ) (k : FeatureKind) :
    DescriptorStore :=
  store.filter (sameKey a k)

/-- Propositional characterization of the distinctiveness filter. -/
theorem passesRatioTest_iff (t : ℚ) (c : Correspondence) :
    passesRatioTest t c = true ↔ (c.d1 = 0 ∧ c.d2 = 0) ∨ c.d1 < t * c.d2 := by
  unfold passesRatioTest
  split <;> simp_all

/-- A single `put` leaves exactly one current row for its key. -/
theorem currentRecords_put (store : DescriptorStore) (a : ℤ) (k : FeatureKind)
    (s : DescriptorSet) :
    currentRecords (put store a k s) a k = [(a, k, s)] := by
  unfold currentRecords put
  rw [List.filter_append]
  have h1 : (store.filter (fun r => !(sameKey a k r))).filter (sameKey a k) = [] := by
    induction store with
    | nil => rfl
    | cons r rest ih =>
      by_cases h : sameKey a k r = true
      · simp [List.filter_cons, h, ih]
      · simp [List.filter_cons, h, ih]
  rw [h1]
  simp [sameKey]

/-- Claim C1: with a nonzero good-correspondence count the scorer's
confidence equals `0.7 * match_ratio + 0.3 * distance_quality`, where
`match_ratio = good_count / max(min(|query|, |reference|), 1)` and
`distance_quality = max(0, 1 - mean_distance / 256)` with `mean_distance`
the arithmetic mean of the accepted nearest distances; with a zero good
count the confidence is 0. -/
theorem scorer_confidence_formula (querySize refSize : ℕ) (t : ℚ)
    (cs : List Correspondence) :
    ((cs.filter (passesRatioTest t)).length ≠ 0 →
      (scoreCorrespondences querySize refSize t cs).1 =
        0.7 * (((cs.filter (passesRatioTest t)).length : ℚ) /
            ((max (min querySize refSize) 1 : ℕ) : ℚ)) +
        0.3 * max 0 (1 -
            (((cs.filter (passesRatioTest t)).map Correspondence.d1).sum /
              ((cs.filter (passesRatioTest t)).length : ℚ)) / 256)) ∧
    ((cs.filter (passesRatioTest t)).length = 0 →
      (scoreCorrespondences querySize refSize t cs).1 = 0) := by
  constructor
  · intro h
    simp [scoreCorrespondences, h]
  · intro h
    simp [scoreCorrespondences, h]

/-- Witness for C1 at a concrete input on both branches of the formula. -/
theorem scorer_confidence_formula_check :
    (([⟨10, 100⟩] : List Correspondence).filter (passesRatioTest 0.75)).length ≠ 0 ∧
    (scoreCorrespondences 1 1 0.75 [⟨10, 100⟩]).1 =
      0.7 * (((([⟨10, 100⟩] : List Correspondence).filter (passesRatioTest 0.75)).length : ℚ) /
          ((max (min 1 1) 1 : ℕ) : ℚ)) +
      0.3 * max 0 (1 -
          (((([⟨10, 100⟩] : List Correspondence).filter (passesRatioTest 0.75)).map
              Correspondence.d1).sum /
            ((([⟨10, 100⟩] : List Correspondence).filter (passesRatioTest 0.75)).length : ℚ)) / 256) :=
  ⟨by norm_num [List.filter_cons, passesRatioTest],
    (scorer_confidence_formula 1 1 0.75 [⟨10, 100⟩]).1
      (by norm_num [List.filter_cons, passesRatioTest])⟩

/-- Claim C2: the acceptance gate returns absence exactly when no candidate
was tracked or the best candidate fails the confidence threshold or the
good-match floor; both gates are independent, as the two concrete default
cases (confidence 0.17 with 20 matches; confidence 0.30 with 10 matches)
show. -/
theorem acceptance_gate_rejects_iff (confThreshold : ℚ) (minGood : ℕ)
    (best : Option SpecBest) :
    (acceptBest confThreshold minGood best = none ↔
      best = none ∨ ∃ b, best = some b ∧
        (b.confidence < confThreshold ∨ b.goodCount < minGood)) ∧
    acceptBest defaultConfidenceThreshold defaultMinGoodMatches (some ⟨1, 0.17, 20⟩) = none ∧
    acceptBest defaultConfidenceThreshold defaultMinGoodMatches (some ⟨1, 0.30, 10⟩) = none := by
  refine ⟨?_, by norm_num [acceptBest, defaultConfidenceThreshold, defaultMinGoodMatches],
    by norm_num [acceptBest, defaultConfidenceThreshold, defaultMinGoodMatches]⟩
  cases best with
  | none => simp [acceptBest]
  | some b =>
    by_cases h : b.confidence < confThreshold ∨ b.goodCount < minGood
    · simp [acceptBest, h]
    · simp [acceptBest, h]

/-- Claim C3: the distinctiveness filter accepts a correspondence iff both
distances are exactly zero or `d1 < ratio_threshold * d2`; it acts on each
correspondence independently; with a non-negative `d1` and `d2 = 0` only
the literal zero/zero case is accepted; the default threshold is 0.75 with
a strict comparison. -/
theorem ratio_test_characterization (t : ℚ) (cs₁ cs₂ : List Correspondence)
    (c : Correspondence) :
    (passesRatioTest t c = true ↔ (c.d1 = 0 ∧ c.d2 = 0) ∨ c.d1 < t * c.d2) ∧
    ((cs₁ ++ cs₂).filter (passesRatioTest t) =
      cs₁.filter (passesRatioTest t) ++ cs₂.filter (passesRatioTest t)) ∧
    (0 ≤ c.d1 → c.d2 = 0 →
      (passesRatioTest t c = true ↔ c.d1 = 0 ∧ c.d2 = 0)) ∧
    passesRatioTest defaultRatioThreshold ⟨2, 4⟩ = true ∧
    passesRatioTest defaultRatioThreshold ⟨3, 4⟩ = false := by
  refine ⟨passesRatioTest_iff t c, List.filter_append _ _, ?_,
    by norm_num [passesRatioTest, defaultRatioThreshold],
    by norm_num [passesRatioTest, defaultRatioThreshold]⟩
  intro hd1 hd2
  rw [passesRatioTest_iff]
  constructor
  · rintro (h | h)
    · exact h
    · rw [hd2, mul_zero] at h
      exact absurd h (not_lt.mpr hd1)
  · exact fun h => Or.inl h

/-- Witness for C3 at a concrete correspondence with `d2 = 0`. -/
theorem ratio_test_characterization_check :
    (0 : ℚ) ≤ (3 : ℚ) ∧
    (passesRatioTest 0.75 ⟨3, 0⟩ = true ↔ (3 : ℚ) = 0 ∧ (0 : ℚ) = 0) :=
  ⟨by norm_num,
    (ratio_test_characterization 0.75 [] [] ⟨3, 0⟩).2.2.1 (by norm_num) rfl⟩

/-- Claim C8: after ingesting a descriptor set for an artwork and kind —
including ingesting twice with different sets — the store holds exactly
one current record for that key, equal to the most recent set. -/
theorem put_supersedes (store : DescriptorStore) (a : ℤ) (k : FeatureKind)
    (s₁ s₂ : DescriptorSet) (_hne : s₁ ≠ s₂) :
    currentRecords (put store a k s₁) a k = [(a, k, s₁)] ∧
    currentRecords (put (put store a k s₁) a k s₂) a k = [(a, k, s₂)] :=
  ⟨currentRecords_put store a k s₁, currentRecords_put (put store a k s₁) a k s₂⟩

/-- Witness for C8 on a concrete store and two distinct descriptor sets. -/
theorem put_supersedes_check :
    ([[0]] : DescriptorSet) ≠ [[1]] ∧
    currentRecords (put (put [(2, "orb", [])] 1 "orb" [[0]]) 1 "orb" [[1]]) 1 "orb" =
      [(1, "orb", [[1]])] :=
  ⟨by decide, (put_supersedes [(2, "orb", [])] 1 "orb" [[0]] [[1]] (by decide)).2⟩

/-- Claim C9: on acceptance the recognition call returns the matched
artwork reference, the best confidence rounded to 4 decimal places, the
best good-match count, and the query's extracted-descriptor count. -/
theorem accepted_result_fields (confThreshold : ℚ) (minGood : ℕ) (querySize : ℕ)
    (b : SpecBest) (hc : ¬ b.confidence < confThreshold) (hg : ¬ b.goodCount < minGood) :
    finalizeResult confThreshold minGood querySize (some b) =
      some ⟨b.artworkRef, ((round (b.confidence * 10000) : ℤ) : ℚ) / 10000,
        b.goodCount, querySize⟩ := by
  simp [finalizeResult, acceptBest, hc, hg, round4]

/-- Witness for C9: confidence 0.123456 is returned as 0.1235. -/
theorem accepted_result_fields_check :
    ¬ ((0.123456 : ℚ) < 0.1) ∧ ¬ ((20 : ℕ) < 12) ∧
    finalizeResult 0.1 12 50 (some ⟨5, 0.123456, 20⟩) = some ⟨5, 0.1235, 20, 50⟩ := by
  refine ⟨by norm_num, by norm_num, ?_⟩
  rw [accepted_result_fields 0.1 12 50 ⟨5, 0.123456, 20⟩ (by norm_num) (by norm_num)]
  norm_num [round_eq]

/-- Claim C7: the per-candidate confidence of `recognize_artwork` is
monotonically non-decreasing in the good-match count at a fixed mean
distance, and non-increasing in the mean distance at a fixed good-match
count, for every count at least 1 and all non-negative mean distances. -/
theorem confidence_monotone (n₁ n₂ : ℕ) (d e₁ e₂ : ℚ)
    (hn₁ : 1 ≤ n₁) (hn : n₁ ≤ n₂) (hd : 0 ≤ d) (he₁ : 0 ≤ e₁) (he : e₁ ≤ e₂) :
    confidenceOf n₁ d ≤ confidenceOf n₂ d ∧ confidenceOf n₁ e₂ ≤ confidenceOf n₁ e₁ := by
  have hden : ∀ x : ℚ, 0 ≤ x → (0 : ℚ) < 1 + x / 100 := by
    intro x hx
    have hx' : (0 : ℚ) ≤ x / 100 := by positivity
    linarith
  constructor
  · unfold confidenceOf
    exact (div_le_div_iff_of_pos_right (hden d hd)).mpr (by exact_mod_cast hn)
  · unfold confidenceOf
    apply div_le_div_of_nonneg_left (by positivity) (hden e₁ he₁)
    linarith

/-- Witness for C7 at counts 1 and 2 and mean distances 0 and 100. -/
theorem confidence_monotone_check :
    (1 ≤ 1 ∧ 1 ≤ 2 ∧ (0 : ℚ) ≤ 0 ∧ (0 : ℚ) ≤ 100) ∧
    confidenceOf 1 0 ≤ confidenceOf 2 0 ∧ confidenceOf 1 100 ≤ confidenceOf 1 0 := by
  refine ⟨by norm_num, ?_, ?_⟩
  · exact (confidence_monotone 1 2 0 0 100 le_rfl (by norm_num) le_rfl le_rfl
      (by norm_num)).1
  · exact (confidence_monotone 1 2 0 0 100 le_rfl (by norm_num) le_rfl le_rfl
      (by norm_num)).2

/-- With a positive `min_matches`, one scan step cannot fail and is the
pure best-tracking update on the candidate the loop body scores. -/
theorem scanStep_eq_candOf (minMatches : ℤ) (t : ℚ) (st : BestState) (aid : ℤ)
    (ps : List (List DMatch)) (hmin : 1 ≤ minMatches) :
    scanStep minMatches t st aid (some ps) =
      .ok ((candOf minMatches t aid ps).elim st (trackStep st)) := by
  unfold scanStep candOf trackStep
  by_cases hge : ((goodMatches t ps).length : ℤ) ≥ minMatches
  · have hne : ¬ (goodMatches t ps).length = 0 := by
      intro h0
      rw [h0] at hge
      omega
    simp only [hge, hne, if_true, if_false, if_pos, if_neg, not_false_iff]
    by_cases hconf :
        confidenceOf (goodMatches t ps).length (avgDistanceOf (goodMatches t ps)) >
          st.bestScore
    · simp [hconf]
    · simp [hconf]
  · simp [hge]

/-- With a positive `min_matches` the scan loop never fails and computes
the strict-improvement fold over the scored candidates. -/
theorem scanLoop_eq_foldl
    (matcher : DescriptorSet → DescriptorSet → Option (List (List DMatch)))
    (q : DescriptorSet) (minMatches : ℤ) (t : ℚ) (hmin : 1 ≤ minMatches) :
    ∀ (records : List (ℤ × DescriptorSet)) (st : BestState),
      scanLoop matcher q minMatches t st records =
        .ok (List.foldl trackStep st (scoredCandidates matcher q minMatches t records))
  | [], _ => rfl
  | (aid, ref) :: rest, st => by
    rw [scanLoop]
    cases hm : matcher q ref with
    | none =>
      have hsc : scoredCandidates matcher q minMatches t ((aid, ref) :: rest) =
          scoredCandidates matcher q minMatches t rest :=
        List.filterMap_cons_none (show (matcher q ref).bind _ = none by rw [hm]; rfl)
      rw [hsc]
      exact scanLoop_eq_foldl matcher q minMatches t hmin rest st
    | some ps =>
      rw [scanStep_eq_candOf minMatches t st aid ps hmin]
      cases hc : candOf minMatches t aid ps with
      | none =>
        have hsc : scoredCandidates matcher q minMatches t ((aid, ref) :: rest) =
            scoredCandidates matcher q minMatches t rest :=
          List.filterMap_cons_none
            (show (matcher q ref).bind _ = none by rw [hm, Option.some_bind, hc])
        rw [hsc]
        exact scanLoop_eq_foldl matcher q minMatches t hmin rest st
      | some c =>
        have hsc : scoredCandidates matcher q minMatches t ((aid, ref) :: rest) =
            c :: scoredCandidates matcher q minMatches t rest :=
          List.filterMap_cons_some
            (show (matcher q ref).bind _ = some c by rw [hm, Option.some_bind, hc])
        rw [hsc, List.foldl_cons]
        exact scanLoop_eq_foldl matcher q minMatches t hmin rest (trackStep st c)

/-- The candidate scored for a record carries that record's artwork id. -/
theorem candOf_id (minMatches : ℤ) (t : ℚ) (aid : ℤ) (ps : List (List DMatch))
    (c : Cand) (h : candOf minMatches t aid ps = some c) : c.id = aid := by
  unfold candOf at h
  by_cases h1 : ((goodMatches t ps).length : ℤ) ≥ minMatches
  · rw [if_pos h1] at h
    by_cases h2 : (goodMatches t ps).length = 0
    · rw [if_pos h2] at h
      exact absurd h (by simp)
    · rw [if_neg h2] at h
      have hc := Option.some.inj h
      rw [← hc]
  · rw [if_neg h1] at h
    exact absurd h (by simp)

/-- Every scored candidate's id is the id of some stored record. -/
theorem scoredCandidates_id_mem
    (matcher : DescriptorSet → DescriptorSet → Option (List (List DMatch)))
    (q : DescriptorSet) (minMatches : ℤ) (t : ℚ)
    (records : List (ℤ × DescriptorSet)) (c : Cand)
    (h : c ∈ scoredCandidates matcher q minMatches t records) :
    ∃ r ∈ records, r.1 = c.id := by
  unfold scoredCandidates at h
  rw [List.mem_filterMap] at h
  obtain ⟨r, hr, hfr⟩ := h
  rcases Option.bind_eq_some.mp hfr with ⟨ps, _, hc⟩
  exact ⟨r, hr, (candOf_id minMatches t r.1 ps c hc).symm⟩

/-- The strict-improvement fold keeps the initial state when nothing beats
its score, and otherwise ends at the earliest candidate whose confidence
strictly exceeds every earlier candidate's and is not exceeded later. -/
theorem trackBest_characterization :
    ∀ (l : List Cand) (st : BestState),
      (List.foldl trackStep st l = st ∧ ∀ c ∈ l, c.conf ≤ st.bestScore) ∨
      (∃ pre w post, l = pre ++ w :: post ∧
        List.foldl trackStep st l = ⟨some w.id, w.conf, w.count⟩ ∧
        st.bestScore < w.conf ∧
        (∀ c ∈ pre, c.conf < w.conf) ∧
        (∀ c ∈ post, c.conf ≤ w.conf))
  | [], _ => Or.inl ⟨rfl, by simp⟩
  | c :: rest, st => by
    rw [List.foldl_cons]
    by_cases h : c.conf > st.bestScore
    · have hstep : trackStep st c = ⟨some c.id, c.conf, c.count⟩ := by
        rw [trackStep, if_pos h]
      rw [hstep]
      rcases trackBest_characterization rest ⟨some c.id, c.conf, c.count⟩ with
        ⟨heq, hb⟩ | ⟨pre, w, post, hl, heq, hlt, hpre, hpost⟩
      · refine Or.inr ⟨[], c, rest, by simp, heq, h, by simp, ?_⟩
        intro c' hc'
        exact hb c' hc'
      · refine Or.inr ⟨c :: pre, w, post, by rw [hl, List.cons_append], heq,
          lt_trans h hlt, ?_, hpost⟩
        intro c' hc'
        rcases List.mem_cons.mp hc' with rfl | h'
        · exact hlt
        · exact hpre c' h'
    · have hstep : trackStep st c = st := by
        rw [trackStep, if_neg h]
      rw [hstep]
      rcases trackBest_characterization rest st with
        ⟨heq, hb⟩ | ⟨pre, w, post, hl, heq, hlt, hpre, hpost⟩
      · refine Or.inl ⟨heq, ?_⟩
        intro c' hc'
        rcases List.mem_cons.mp hc' with rfl | h'
        · exact le_of_not_lt h
        · exact hb c' h'
      · refine Or.inr ⟨c :: pre, w, post, by rw [hl, List.cons_append], heq, hlt, ?_, hpost⟩
        intro c' hc'
        rcases List.mem_cons.mp hc' with rfl | h'
        · exact lt_of_le_of_lt (le_of_not_lt h) hlt
        · exact hpre c' h'

/-- With a positive `min_matches`, a recognition call always returns a
value and never fails. -/
theorem recognize_artwork_ok
    (matcher : DescriptorSet → DescriptorSet → Option (List (List DMatch)))
    (q : DescriptorSet) (records : List (ℤ × DescriptorSet))
    (minMatches : ℤ) (t : ℚ) (hmin : 1 ≤ minMatches) :
    ∃ r, recognize_artwork matcher q records minMatches t = .ok r := by
  unfold recognize_artwork
  by_cases hq : q.isEmpty = true
  · rw [if_pos hq]
    exact ⟨none, rfl⟩
  · rw [if_neg hq, scanLoop_eq_foldl matcher q minMatches t hmin records ⟨none, 0, 0⟩]
    exact ⟨bestToResult (List.foldl trackStep ⟨none, 0, 0⟩
      (scoredCandidates matcher q minMatches t records)), rfl⟩

/-- Claim C4: every stored record is processed (the result is determined by
the full scored list) and the tracked candidate is the global confidence
maximum under strictly-greater replacement: either no scored candidate has
positive confidence and the call returns `None`, or the scored list splits
around an earliest winner whose confidence strictly exceeds every earlier
candidate's, is not exceeded by any later candidate's, and whose data the
call returns. -/
theorem recognize_returns_earliest_global_best
    (matcher : DescriptorSet → DescriptorSet → Option (List (List DMatch)))
    (q : DescriptorSet) (records : List (ℤ × DescriptorSet))
    (minMatches : ℤ) (t : ℚ)
    (hq : q.isEmpty = false) (hmin : 1 ≤ minMatches)
    (hid : ∀ r ∈ records, r.1 ≠ (0 : ℤ)) :
    (recognize_artwork matcher q records minMatches t = .ok none ∧
      ∀ c ∈ scoredCandidates matcher q minMatches t records, c.conf ≤ 0) ∨
    (∃ pre w post,
      scoredCandidates matcher q minMatches t records = pre ++ w :: post ∧
      0 < w.conf ∧
      (∀ c ∈ pre, c.conf < w.conf) ∧
      (∀ c ∈ post, c.conf ≤ w.conf) ∧
      recognize_artwork matcher q records minMatches t =
        .ok (some (w.id, w.conf, w.count))) := by
  have hq' : ¬ (q.isEmpty = true) := by simp [hq]
  have hscan := scanLoop_eq_foldl matcher q minMatches t hmin records ⟨none, 0, 0⟩
  rcases trackBest_characterization
      (scoredCandidates matcher q minMatches t records) ⟨none, 0, 0⟩ with
    ⟨heq, hb⟩ | ⟨pre, w, post, hl, heq, hlt, hpre, hpost⟩
  · left
    refine ⟨?_, hb⟩
    unfold recognize_artwork
    rw [if_neg hq', hscan, heq]
    rfl
  · right
    have hw : w ∈ scoredCandidates matcher q minMatches t records :=
      hl ▸ List.mem_append_right pre (List.mem_cons_self w post)
    obtain ⟨r, hr, hrid⟩ := scoredCandidates_id_mem matcher q minMatches t records w hw
    have hw0 : w.id ≠ 0 := by
      rw [← hrid]
      exact hid r hr
    refine ⟨pre, w, post, hl, hlt, hpre, hpost, ?_⟩
    unfold recognize_artwork
    rw [if_neg hq', hscan, heq]
    simp [bestToResult, hw0]

/-- Witness for C4 on a store of two records that tie at confidence 1: the
earliest is the one returned. -/
theorem recognize_returns_earliest_global_best_check :
    (([[0]] : DescriptorSet).isEmpty = false ∧ (1 : ℤ) ≤ 1 ∧
      ∀ r ∈ ([(1, [[5]]), (2, [[6]])] : List (ℤ × DescriptorSet)), r.1 ≠ (0 : ℤ)) ∧
    ((recognize_artwork (fun _ _ => some [[⟨0⟩, ⟨10⟩]]) [[0]] [(1, [[5]]), (2, [[6]])] 1
        defaultMatchThreshold = .ok none ∧
      ∀ c ∈ scoredCandidates (fun _ _ => some [[⟨0⟩, ⟨10⟩]]) [[0]] 1 defaultMatchThreshold
          [(1, [[5]]), (2, [[6]])], c.conf ≤ 0) ∨
    (∃ pre w post,
      scoredCandidates (fun _ _ => some [[⟨0⟩, ⟨10⟩]]) [[0]] 1 defaultMatchThreshold
          [(1, [[5]]), (2, [[6]])] = pre ++ w :: post ∧
      0 < w.conf ∧
      (∀ c ∈ pre, c.conf < w.conf) ∧
      (∀ c ∈ post, c.conf ≤ w.conf) ∧
      recognize_artwork (fun _ _ => some [[⟨0⟩, ⟨10⟩]]) [[0]] [(1, [[5]]), (2, [[6]])] 1
        defaultMatchThreshold = .ok (some (w.id, w.conf, w.count)))) :=
  ⟨⟨rfl, le_rfl, by decide⟩,
    recognize_returns_earliest_global_best (fun _ _ => some [[⟨0⟩, ⟨10⟩]]) [[0]]
      [(1, [[5]]), (2, [[6]])] 1 defaultMatchThreshold rfl le_rfl (by decide)⟩

/-- Claim C5: a query with zero extracted descriptors returns absence; a
scan of an empty store returns absence; and with a positive `min_matches`
floor (the default is 30) the call always returns a value rather than
raising, so a no-confident-match outcome is an absence value, not an
error. -/
theorem recognize_absence_cases
    (matcher : DescriptorSet → DescriptorSet → Option (List (List DMatch)))
    (q : DescriptorSet) (records : List (ℤ × DescriptorSet))
    (minMatches : ℤ) (t : ℚ) :
    (q = [] → recognize_artwork matcher q records minMatches t = .ok none) ∧
    (records = [] → recognize_artwork matcher q records minMatches t = .ok none) ∧
    (1 ≤ minMatches →
      ∃ r, recognize_artwork matcher q records minMatches t = .ok r) := by
  refine ⟨?_, ?_, fun hmin => recognize_artwork_ok matcher q records minMatches t hmin⟩
  · rintro rfl
    rfl
  · rintro rfl
    unfold recognize_artwork
    by_cases hq : q.isEmpty = true
    · rw [if_pos hq]
    · rw [if_neg hq]
      rfl

/-- Witness for C5: empty query, empty store, and the default positive
floor all yield absence without an error. -/
theorem recognize_absence_cases_check :
    (([] : DescriptorSet) = [] ∧ ([] : List (ℤ × DescriptorSet)) = [] ∧
      (1 : ℤ) ≤ defaultMinMatches) ∧
    recognize_artwork (fun _ _ => none) [] [(1, [[0]])] defaultMinMatches
      defaultMatchThreshold = .ok none ∧
    recognize_artwork (fun _ _ => none) [[0]] [] defaultMinMatches
      defaultMatchThreshold = .ok none ∧
    ∃ r, recognize_artwork (fun _ _ => none) [[0]] [(1, [[0]])] defaultMinMatches
      defaultMatchThreshold = .ok r :=
  ⟨⟨rfl, rfl, by decide⟩,
    (recognize_absence_cases (fun _ _ => none) [] [(1, [[0]])] defaultMinMatches
      defaultMatchThreshold).1 rfl,
    (recognize_absence_cases (fun _ _ => none) [[0]] [] defaultMinMatches
      defaultMatchThreshold).2.1 rfl,
    (recognize_absence_cases (fun _ _ => none) [[0]] [(1, [[0]])] defaultMinMatches
      defaultMatchThreshold).2.2 (by decide)⟩

/-- Removing a record the matcher cannot compare does not change the scan. -/
theorem scanLoop_skips_failed
    (matcher : DescriptorSet → DescriptorSet → Option (List (List DMatch)))
    (q : DescriptorSet) (minMatches : ℤ) (t : ℚ) (aid : ℤ) (badRef : DescriptorSet)
    (hbad : matcher q badRef = none) :
    ∀ (pre post : List (ℤ × DescriptorSet)) (st : BestState),
      scanLoop matcher q minMatches t st (pre ++ (aid, badRef) :: post) =
        scanLoop matcher q minMatches t st (pre ++ post)
  | [], post, st => by
    rw [List.nil_append, List.nil_append, scanLoop, hbad]
    rfl
  | (a, r) :: pre', post, st => by
    rw [List.cons_append, List.cons_append, scanLoop, scanLoop]
    cases scanStep minMatches t st a (matcher q r) with
    | error e => rfl
    | ok st' => exact scanLoop_skips_failed matcher q minMatches t aid badRef hbad pre' post st'

/-- Claim C6: when the matcher rejects the comparison for one stored
record, that record contributes nothing and the scan continues: the
recognition call over a store containing it equals the call over the store
without it, so the per-candidate failure never becomes a failure of the
whole call. -/
theorem matcher_failure_is_skipped
    (matcher : DescriptorSet → DescriptorSet → Option (List (List DMatch)))
    (q : DescriptorSet) (minMatches : ℤ) (t : ℚ)
    (pre post : List (ℤ × DescriptorSet)) (aid : ℤ) (badRef : DescriptorSet)
    (hbad : matcher q badRef = none) :
    recognize_artwork matcher q (pre ++ (aid, badRef) :: post) minMatches t =
      recognize_artwork matcher q (pre ++ post) minMatches t := by
  unfold recognize_artwork
  rw [scanLoop_skips_failed matcher q minMatches t aid badRef hbad pre post ⟨none, 0, 0⟩]

/-- Witness for C6: a store whose middle record cannot be compared yields
the same call result as the store without that record. -/
theorem matcher_failure_is_skipped_check :
    (fun (_ y : DescriptorSet) => if y = [] then none else some [[(⟨0⟩ : DMatch), ⟨10⟩]])
        [[0]] [] = none ∧
    recognize_artwork
      (fun (_ y : DescriptorSet) => if y = [] then none else some [[(⟨0⟩ : DMatch), ⟨10⟩]])
      [[0]] ([(1, [[5]])] ++ (3, []) :: [(4, [[6]])]) 1 defaultMatchThreshold =
    recognize_artwork
      (fun (_ y : DescriptorSet) => if y = [] then none else some [[(⟨0⟩ : DMatch), ⟨10⟩]])
      [[0]] ([(1, [[5]])] ++ [(4, [[6]])]) 1 defaultMatchThreshold :=
  ⟨by simp,
    matcher_failure_is_skipped
      (fun (_ y : DescriptorSet) => if y = [] then none else some [[(⟨0⟩ : DMatch), ⟨10⟩]])
      [[0]] 1 defaultMatchThreshold [(1, [[5]])] [(4, [[6]])] 3 [] (by simp)⟩

/-- Claim C10: with `min_matches ≥ 1` every scored candidate's good-match
count is positive, so the average-distance divisor is never zero and the
call returns; the precondition is necessary: with `min_matches = 0` and a
stored candidate whose filtered good-match list is empty, the average
computation divides by zero and the call fails. -/
theorem min_matches_guards_division
    (matcher : DescriptorSet → DescriptorSet → Option (List (List DMatch)))
    (q : DescriptorSet) (records : List (ℤ × DescriptorSet))
    (minMatches : ℤ) (t : ℚ) :
    (1 ≤ minMatches →
      ∃ r, recognize_artwork matcher q records minMatches t = .ok r) ∧
    recognize_artwork (fun _ _ => some []) [[0]] [(1, [])] 0 defaultMatchThreshold =
      .error .zeroDivision := by
  refine ⟨fun hmin => recognize_artwork_ok matcher q records minMatches t hmin, ?_⟩
  rfl

/-- Witness for C10 with the positive floor instantiated at 1. -/
theorem min_matches_guards_division_check :
    (1 : ℤ) ≤ 1 ∧
    ∃ r, recognize_artwork (fun _ _ => some []) [[0]] [(1, [])] 1
      defaultMatchThreshold = .ok r :=
  ⟨le_rfl,
    (min_matches_guards_division (fun _ _ => some []) [[0]] [(1, [])] 1
      defaultMatchThreshold).1 le_rfl⟩
